import Mathlib

/-!
Verification of `CDiscAdjVariable` (SU2, src/SU2_CFD/include/variables/CDiscAdjVariable.hpp):
the per-mesh-node state container backing the discrete-adjoint solver.

Embedding notes.
* `su2double` values are only ever stored and copied by this class (no arithmetic),
  so they are modelled exactly by `Int`.
* `Idx_t` indices are modelled by `Nat`.
* `Mat_t` (a fixed-shape 2-D array inherited from the container layer) is modelled by
  `Mat`: row/column counts plus a total entry function.  In-range element access
  `M(i,j)` is `Mat.get` / `Mat.set`; out-of-range access in the C++ is handled by the
  separately modelled checked accessors below.
* A raw `const su2double*` argument (a pointer into caller memory, carrying no length)
  is modelled as a total function `Nat → Int`.
-/

/-- Model of `Mat_t`: a 2-D numeric array with a fixed shape. -/
structure Mat where
  rows : Nat
  cols : Nat
  data : Nat → Nat → Int

/-- Element read `M(i,j)`. -/
def Mat.get (m : Mat) (i j : Nat) : Int := m.data i j

/-- Element write `M(i,j) = v`. -/
def Mat.set (m : Mat) (i j : Nat) (v : Int) : Mat :=
  { m with data := fun i2 j2 => if i2 = i ∧ j2 = j then v else m.data i2 j2 }

/-- A constant-initialized `r × c` array. -/
def Mat.ofConst (r c : Nat) (v : Int) : Mat := ⟨r, c, fun _ _ => v⟩

/-- The row-writing loop `for (j = 0; j < w; j++) M(i,j) = f(j);` shared by all
batched setters and snapshot operations of the class. -/
def Mat.writeRow (m : Mat) (i w : Nat) (f : Nat → Int) : Mat :=
  (List.range w).foldl (fun acc j => acc.set i j (f j)) m

/-- Modelled from the spec: the implementation of `Mat_t` element access lives in the
container layer (`CVariable.hpp` and below), which is not under src/.  Per the spec's
error taxonomy, access with node index ≥ N or component index ≥ the declared width
fails immediately and deterministically; this checked read returns `none` there. -/
def Mat.getChecked (m : Mat) (i j : Nat) : Option Int :=
  if i < m.rows ∧ j < m.cols then some (m.data i j) else none

/-- Modelled from the spec: checked counterpart of `Mat.set`; an out-of-range write
fails immediately (returns `none`) instead of clamping, wrapping or writing. -/
def Mat.setChecked (m : Mat) (i j : Nat) (v : Int) : Option Mat :=
  if i < m.rows ∧ j < m.cols then some (m.set i j v) else none

/-- State of a `CDiscAdjVariable` object: the sizing members inherited from
`CVariable` plus the thirteen `Mat_t` fields declared in the class, and the
base-class adjoint `Solution` that the constructor initializes from `sol`. -/
structure CDiscAdjVariable where
  nPoint : Nat
  nDim : Nat
  nVar : Nat
  Solution : Mat
  Sensitivity : Mat
  Solution_Direct : Mat
  DualTime_Derivative : Mat
  DualTime_Derivative_n : Mat
  Cross_Term_Derivative : Mat
  Geometry_CrossTerm_Derivative : Mat
  Geometry_CrossTerm_Derivative_Flow : Mat
  Solution_Geometry : Mat
  Solution_Geometry_Old : Mat
  Geometry_Direct : Mat
  Solution_BGS : Mat
  Solution_BGS_k : Mat
  Solution_Geometry_BGS_k : Mat

namespace CDiscAdjVariable

/-- Modelled from the spec: the constructor body
`CDiscAdjVariable(const su2double* sol, Idx_t npoint, Idx_t ndim, Idx_t nvar, CConfig*)`
lives in `CDiscAdjVariable.cpp`, which is not under src/.  Per the spec, the store is
allocated with exactly `npoint` rows per field at the declared width (`nvar` for
variable fields, `ndim` for spatial fields); the adjoint `Solution` is initialized
from the caller-supplied `sol` vector and every other field to zero. -/
def construct (sol : Nat → Int) (npoint ndim nvar : Nat) : CDiscAdjVariable where
  nPoint := npoint
  nDim := ndim
  nVar := nvar
  Solution := ⟨npoint, nvar, fun _ j => sol j⟩
  Sensitivity := Mat.ofConst npoint ndim 0
  Solution_Direct := Mat.ofConst npoint nvar 0
  DualTime_Derivative := Mat.ofConst npoint nvar 0
  DualTime_Derivative_n := Mat.ofConst npoint nvar 0
  Cross_Term_Derivative := Mat.ofConst npoint nvar 0
  Geometry_CrossTerm_Derivative := Mat.ofConst npoint ndim 0
  Geometry_CrossTerm_Derivative_Flow := Mat.ofConst npoint ndim 0
  Solution_Geometry := Mat.ofConst npoint ndim 0
  Solution_Geometry_Old := Mat.ofConst npoint ndim 0
  Geometry_Direct := Mat.ofConst npoint ndim 0
  Solution_BGS := Mat.ofConst npoint nvar 0
  Solution_BGS_k := Mat.ofConst npoint nvar 0
  Solution_Geometry_BGS_k := Mat.ofConst npoint ndim 0

/-- `Sensitivity(iPoint,iDim) = val` -/
def SetSensitivity (s : CDiscAdjVariable) (iPoint iDim : Nat) (val : Int) : CDiscAdjVariable :=
  { s with Sensitivity := s.Sensitivity.set iPoint iDim val }

/-- `return Sensitivity(iPoint,iDim)` -/
def GetSensitivity (s : CDiscAdjVariable) (iPoint iDim : Nat) : Int :=
  s.Sensitivity.get iPoint iDim

/-- `DualTime_Derivative(iPoint,iVar) = der` -/
def SetDual_Time_Derivative (s : CDiscAdjVariable) (iPoint iVar : Nat) (der : Int) :
    CDiscAdjVariable :=
  { s with DualTime_Derivative := s.DualTime_Derivative.set iPoint iVar der }

/-- `DualTime_Derivative_n(iPoint,iVar) = der` -/
def SetDual_Time_Derivative_n (s : CDiscAdjVariable) (iPoint iVar : Nat) (der : Int) :
    CDiscAdjVariable :=
  { s with DualTime_Derivative_n := s.DualTime_Derivative_n.set iPoint iVar der }

/-- `return DualTime_Derivative(iPoint,iVar)` -/
def GetDual_Time_Derivative (s : CDiscAdjVariable) (iPoint iVar : Nat) : Int :=
  s.DualTime_Derivative.get iPoint iVar

/-- `return DualTime_Derivative_n(iPoint,iVar)` -/
def GetDual_Time_Derivative_n (s : CDiscAdjVariable) (iPoint iVar : Nat) : Int :=
  s.DualTime_Derivative_n.get iPoint iVar

/-- `for (iVar = 0; iVar < nVar; iVar++) Solution_Direct(iPoint,iVar) = val_solution_direct[iVar];` -/
def SetSolution_Direct (s : CDiscAdjVariable) (iPoint : Nat) (val_solution_direct : Nat → Int) :
    CDiscAdjVariable :=
  { s with Solution_Direct := s.Solution_Direct.writeRow iPoint s.nVar val_solution_direct }

/-- `return Solution_Direct[iPoint]` (a pointer to the row, modelled as its view). -/
def GetSolution_Direct (s : CDiscAdjVariable) (iPoint : Nat) : Nat → Int :=
  fun iVar => s.Solution_Direct.get iPoint iVar

/-- `for (iDim = 0; iDim < nDim; iDim++) Geometry_Direct(iPoint,iDim) = val_geometry_direct[iDim];` -/
def SetGeometry_Direct (s : CDiscAdjVariable) (iPoint : Nat) (val_geometry_direct : Nat → Int) :
    CDiscAdjVariable :=
  { s with Geometry_Direct := s.Geometry_Direct.writeRow iPoint s.nDim val_geometry_direct }

/-- `return Geometry_Direct[iPoint]` (a pointer to the row, modelled as its view). -/
def GetGeometry_DirectRow (s : CDiscAdjVariable) (iPoint : Nat) : Nat → Int :=
  fun iDim => s.Geometry_Direct.get iPoint iDim

/-- `return Geometry_Direct(iPoint,iDim)` (the scalar overload). -/
def GetGeometry_Direct (s : CDiscAdjVariable) (iPoint iDim : Nat) : Int :=
  s.Geometry_Direct.get iPoint iDim

/-- `return Solution_Geometry(iPoint,iDim)` -/
def GetSolution_Geometry (s : CDiscAdjVariable) (iPoint iDim : Nat) : Int :=
  s.Solution_Geometry.get iPoint iDim

/-- `for (iDim = 0; iDim < nDim; iDim++) Solution_Geometry(iPoint,iDim) = val_solution_geometry[iDim];`
(the vector overload of `SetSolution_Geometry`). -/
def SetSolution_GeometryVec (s : CDiscAdjVariable) (iPoint : Nat)
    (val_solution_geometry : Nat → Int) : CDiscAdjVariable :=
  { s with Solution_Geometry := s.Solution_Geometry.writeRow iPoint s.nDim val_solution_geometry }

/-- `Solution_Geometry(iPoint,iVar) = val_solution_geometry` (the scalar overload). -/
def SetSolution_Geometry (s : CDiscAdjVariable) (iPoint iVar : Nat) (val_solution_geometry : Int) :
    CDiscAdjVariable :=
  { s with Solution_Geometry := s.Solution_Geometry.set iPoint iVar val_solution_geometry }

/-- `return Geometry_CrossTerm_Derivative(iPoint,iVar)` -/
def GetGeometry_CrossTerm_Derivative (s : CDiscAdjVariable) (iPoint iVar : Nat) : Int :=
  s.Geometry_CrossTerm_Derivative.get iPoint iVar

/-- `Geometry_CrossTerm_Derivative(iPoint,iDim) = der` -/
def SetGeometry_CrossTerm_Derivative (s : CDiscAdjVariable) (iPoint iDim : Nat) (der : Int) :
    CDiscAdjVariable :=
  { s with Geometry_CrossTerm_Derivative := s.Geometry_CrossTerm_Derivative.set iPoint iDim der }

/-- `return Geometry_CrossTerm_Derivative_Flow(iPoint,iVar)` -/
def GetGeometry_CrossTerm_Derivative_Flow (s : CDiscAdjVariable) (iPoint iVar : Nat) : Int :=
  s.Geometry_CrossTerm_Derivative_Flow.get iPoint iVar

/-- `Geometry_CrossTerm_Derivative_Flow(iPoint,iDim) = der` -/
def SetGeometry_CrossTerm_Derivative_Flow (s : CDiscAdjVariable) (iPoint iDim : Nat) (der : Int) :
    CDiscAdjVariable :=
  { s with Geometry_CrossTerm_Derivative_Flow :=
      s.Geometry_CrossTerm_Derivative_Flow.set iPoint iDim der }

/-- `for (iDim = 0; iDim < nDim; iDim++) Solution_Geometry_Old(iPoint,iDim) = Solution_Geometry(iPoint,iDim);` -/
def Set_OldSolution_Geometry (s : CDiscAdjVariable) (iPoint : Nat) : CDiscAdjVariable :=
  { s with Solution_Geometry_Old :=
      s.Solution_Geometry_Old.writeRow iPoint s.nDim (fun iDim => s.Solution_Geometry.get iPoint iDim) }

/-- `return Solution_Geometry_Old(iPoint,iDim)` -/
def Get_OldSolution_Geometry (s : CDiscAdjVariable) (iPoint iDim : Nat) : Int :=
  s.Solution_Geometry_Old.get iPoint iDim

/-- `Solution_BGS(iPoint,iDim) = val_solution` -/
def Set_BGSSolution (s : CDiscAdjVariable) (iPoint iDim : Nat) (val_solution : Int) :
    CDiscAdjVariable :=
  { s with Solution_BGS := s.Solution_BGS.set iPoint iDim val_solution }

/-- `for (iVar = 0; iVar < nVar; iVar++) Solution_BGS_k(iPoint,iVar) = Solution_BGS(iPoint,iVar);` -/
def Set_BGSSolution_k (s : CDiscAdjVariable) (iPoint : Nat) : CDiscAdjVariable :=
  { s with Solution_BGS_k :=
      s.Solution_BGS_k.writeRow iPoint s.nVar (fun iVar => s.Solution_BGS.get iPoint iVar) }

/-- `return Solution_BGS(iPoint,iDim)` -/
def Get_BGSSolution (s : CDiscAdjVariable) (iPoint iDim : Nat) : Int :=
  s.Solution_BGS.get iPoint iDim

/-- `return Solution_BGS_k(iPoint,iDim)` -/
def Get_BGSSolution_k (s : CDiscAdjVariable) (iPoint iDim : Nat) : Int :=
  s.Solution_BGS_k.get iPoint iDim

/-- `for (iDim = 0; iDim < nDim; iDim++) Solution_Geometry_BGS_k(iPoint,iDim) = Solution_Geometry(iPoint,iDim);` -/
def Set_BGSSolution_Geometry (s : CDiscAdjVariable) (iPoint : Nat) : CDiscAdjVariable :=
  { s with Solution_Geometry_BGS_k :=
      s.Solution_Geometry_BGS_k.writeRow iPoint s.nDim (fun iDim => s.Solution_Geometry.get iPoint iDim) }

/-- `return Solution_Geometry_BGS_k(iPoint,iDim)` -/
def Get_BGSSolution_Geometry (s : CDiscAdjVariable) (iPoint iDim : Nat) : Int :=
  s.Solution_Geometry_BGS_k.get iPoint iDim

/-- `Cross_Term_Derivative(iPoint,iVar) = der` -/
def SetCross_Term_Derivative (s : CDiscAdjVariable) (iPoint iVar : Nat) (der : Int) :
    CDiscAdjVariable :=
  { s with Cross_Term_Derivative := s.Cross_Term_Derivative.set iPoint iVar der }

/-- `return Cross_Term_Derivative(iPoint,iVar)` -/
def GetCross_Term_Derivative (s : CDiscAdjVariable) (iPoint iVar : Nat) : Int :=
  s.Cross_Term_Derivative.get iPoint iVar

/-- Modelled from the spec: bounds-checked read of `Sensitivity` (the `Mat_t`
access implementation is not under src/; see `Mat.getChecked`). -/
def GetSensitivityChecked (s : CDiscAdjVariable) (iPoint iDim : Nat) : Option Int :=
  s.Sensitivity.getChecked iPoint iDim

/-- Modelled from the spec: bounds-checked write of `Sensitivity`. -/
def SetSensitivityChecked (s : CDiscAdjVariable) (iPoint iDim : Nat) (val : Int) :
    Option CDiscAdjVariable :=
  (s.Sensitivity.setChecked iPoint iDim val).map fun m => { s with Sensitivity := m }

/-- Modelled from the spec: bounds-checked read of `Cross_Term_Derivative`
(a variable-axis field, width `nVar`). -/
def GetCross_Term_DerivativeChecked (s : CDiscAdjVariable) (iPoint iVar : Nat) : Option Int :=
  s.Cross_Term_Derivative.getChecked iPoint iVar

/-- Modelled from the spec: bounds-checked write of `Cross_Term_Derivative`. -/
def SetCross_Term_DerivativeChecked (s : CDiscAdjVariable) (iPoint iVar : Nat) (der : Int) :
    Option CDiscAdjVariable :=
  (s.Cross_Term_Derivative.setChecked iPoint iVar der).map
    fun m => { s with Cross_Term_Derivative := m }

end CDiscAdjVariable

/-- One mutating call on a `CDiscAdjVariable`: a setter or snapshot operation of the
class together with its arguments (one constructor per mutating member function). -/
inductive Op where
  | setSensitivity (iPoint iDim : Nat) (val : Int)
  | setDualTimeDerivative (iPoint iVar : Nat) (der : Int)
  | setDualTimeDerivativeN (iPoint iVar : Nat) (der : Int)
  | setSolutionDirect (iPoint : Nat) (val : Nat → Int)
  | setGeometryDirect (iPoint : Nat) (val : Nat → Int)
  | setSolutionGeometryVec (iPoint : Nat) (val : Nat → Int)
  | setSolutionGeometry (iPoint iVar : Nat) (val : Int)
  | setGeometryCrossTermDerivative (iPoint iDim : Nat) (der : Int)
  | setGeometryCrossTermDerivativeFlow (iPoint iDim : Nat) (der : Int)
  | setOldSolutionGeometry (iPoint : Nat)
  | setBGSSolution (iPoint iDim : Nat) (val : Int)
  | setBGSSolutionK (iPoint : Nat)
  | setBGSSolutionGeometry (iPoint : Nat)
  | setCrossTermDerivative (iPoint iVar : Nat) (der : Int)

/-- The node index (`iPoint` argument) an operation touches. -/
def Op.node : Op → Nat
  | .setSensitivity i _ _ => i
  | .setDualTimeDerivative i _ _ => i
  | .setDualTimeDerivativeN i _ _ => i
  | .setSolutionDirect i _ => i
  | .setGeometryDirect i _ => i
  | .setSolutionGeometryVec i _ => i
  | .setSolutionGeometry i _ _ => i
  | .setGeometryCrossTermDerivative i _ _ => i
  | .setGeometryCrossTermDerivativeFlow i _ _ => i
  | .setOldSolutionGeometry i => i
  | .setBGSSolution i _ _ => i
  | .setBGSSolutionK i => i
  | .setBGSSolutionGeometry i => i
  | .setCrossTermDerivative i _ _ => i

/-- Whether an operation is a `Set_BGSSolution` call at node `i` (the only
operation that writes the `Solution_BGS` field). -/
def Op.writesBGSSolutionAt (op : Op) (i : Nat) : Bool :=
  match op with
  | .setBGSSolution p _ _ => p = i
  | _ => false

/-- Dispatch of one operation to the corresponding member function. -/
def applyOp (s : CDiscAdjVariable) : Op → CDiscAdjVariable
  | .setSensitivity i d v => s.SetSensitivity i d v
  | .setDualTimeDerivative i k v => s.SetDual_Time_Derivative i k v
  | .setDualTimeDerivativeN i k v => s.SetDual_Time_Derivative_n i k v
  | .setSolutionDirect i f => s.SetSolution_Direct i f
  | .setGeometryDirect i f => s.SetGeometry_Direct i f
  | .setSolutionGeometryVec i f => s.SetSolution_GeometryVec i f
  | .setSolutionGeometry i k v => s.SetSolution_Geometry i k v
  | .setGeometryCrossTermDerivative i d v => s.SetGeometry_CrossTerm_Derivative i d v
  | .setGeometryCrossTermDerivativeFlow i d v => s.SetGeometry_CrossTerm_Derivative_Flow i d v
  | .setOldSolutionGeometry i => s.Set_OldSolution_Geometry i
  | .setBGSSolution i d v => s.Set_BGSSolution i d v
  | .setBGSSolutionK i => s.Set_BGSSolution_k i
  | .setBGSSolutionGeometry i => s.Set_BGSSolution_Geometry i
  | .setCrossTermDerivative i k v => s.SetCross_Term_Derivative i k v

/-- Execution of a call sequence, first operation first. -/
def exec (s : CDiscAdjVariable) (ops : List Op) : CDiscAdjVariable :=
  ops.foldl applyOp s

/-- `agreeAt s t j`: every field of the two states stores the same values in row `j`. -/
def agreeAt (s t : CDiscAdjVariable) (j : Nat) : Prop :=
  ∀ k,
    s.Solution.get j k = t.Solution.get j k ∧
    s.Sensitivity.get j k = t.Sensitivity.get j k ∧
    s.Solution_Direct.get j k = t.Solution_Direct.get j k ∧
    s.DualTime_Derivative.get j k = t.DualTime_Derivative.get j k ∧
    s.DualTime_Derivative_n.get j k = t.DualTime_Derivative_n.get j k ∧
    s.Cross_Term_Derivative.get j k = t.Cross_Term_Derivative.get j k ∧
    s.Geometry_CrossTerm_Derivative.get j k = t.Geometry_CrossTerm_Derivative.get j k ∧
    s.Geometry_CrossTerm_Derivative_Flow.get j k = t.Geometry_CrossTerm_Derivative_Flow.get j k ∧
    s.Solution_Geometry.get j k = t.Solution_Geometry.get j k ∧
    s.Solution_Geometry_Old.get j k = t.Solution_Geometry_Old.get j k ∧
    s.Geometry_Direct.get j k = t.Geometry_Direct.get j k ∧
    s.Solution_BGS.get j k = t.Solution_BGS.get j k ∧
    s.Solution_BGS_k.get j k = t.Solution_BGS_k.get j k ∧
    s.Solution_Geometry_BGS_k.get j k = t.Solution_Geometry_BGS_k.get j k

/-- Concrete fixture: a store with N = 1, nDim = 2, nVar = 3 and zero baseline. -/
def sampleStore1 : CDiscAdjVariable := CDiscAdjVariable.construct (fun _ => 0) 1 2 3

/-- Concrete fixture: a store with N = 2, nDim = 2, nVar = 3 and zero baseline. -/
def sampleStore2 : CDiscAdjVariable := CDiscAdjVariable.construct (fun _ => 0) 2 2 3

/-- Concrete fixture: `sampleStore1` with the current BGS solution of node 0 set
to `[1, 2, 3]` (the spec's end-to-end scenario 2). -/
def sampleBGSStore : CDiscAdjVariable :=
  CDiscAdjVariable.Set_BGSSolution
    (CDiscAdjVariable.Set_BGSSolution
      (CDiscAdjVariable.Set_BGSSolution sampleStore1 0 0 1) 0 1 2) 0 2 3

/-- Concrete fixture: `sampleStore1` with `DualTime_Derivative(0,0) = 10`
(the spec's end-to-end scenario 3). -/
def sampleDualStore : CDiscAdjVariable :=
  CDiscAdjVariable.SetDual_Time_Derivative sampleStore1 0 0 10

/-- Concrete fixture: `sampleStore1` with `Solution_Geometry(0,1) = 9`. -/
def sampleGeomStore : CDiscAdjVariable :=
  CDiscAdjVariable.SetSolution_Geometry sampleStore1 0 1 9

/-- Concrete fixture: a two-element supplied vector `[10, 20]` viewed as the memory a
raw pointer points into; any read past its end yields the junk value 99. -/
def shortVec : Nat → Int := fun i => ([10, 20] : List Int).getD i 99

/-- Concrete fixture: a call sequence that writes several fields of node 0 and the
`Solution_BGS` of node 1, but never `Set_BGSSolution` at node 0. -/
def sampleOps : List Op :=
  [Op.setSensitivity 0 1 5, Op.setCrossTermDerivative 0 1 6,
    Op.setBGSSolution 1 0 7, Op.setSolutionGeometry 0 1 8, Op.setBGSSolutionK 0]

/-! ### Basic facts about the array model -/

theorem Mat.get_set_self (m : Mat) (i j : Nat) (v : Int) : (m.set i j v).get i j = v := by
  simp [Mat.set, Mat.get]

theorem Mat.get_set_of_ne (m : Mat) (i j : Nat) (v : Int) (i2 j2 : Nat)
    (h : i2 ≠ i ∨ j2 ≠ j) : (m.set i j v).get i2 j2 = m.get i2 j2 := by
  simp only [Mat.set, Mat.get]
  rw [if_neg]
  rintro ⟨rfl, rfl⟩
  rcases h with h | h <;> exact h rfl

theorem Mat.rows_set (m : Mat) (i j : Nat) (v : Int) : (m.set i j v).rows = m.rows := rfl

theorem Mat.cols_set (m : Mat) (i j : Nat) (v : Int) : (m.set i j v).cols = m.cols := rfl

theorem Mat.writeRow_zero (m : Mat) (i : Nat) (f : Nat → Int) : m.writeRow i 0 f = m := rfl

theorem Mat.writeRow_succ (m : Mat) (i w : Nat) (f : Nat → Int) :
    m.writeRow i (w + 1) f = (m.writeRow i w f).set i w (f w) := by
  simp [Mat.writeRow, List.range_succ]

theorem Mat.get_writeRow_of_lt (m : Mat) (i w : Nat) (f : Nat → Int) (j : Nat) (h : j < w) :
    (m.writeRow i w f).get i j = f j := by
  induction w with
  | zero => omega
  | succ w ih =>
    rw [Mat.writeRow_succ]
    rcases Nat.lt_succ_iff_lt_or_eq.mp h with h2 | rfl
    · rw [Mat.get_set_of_ne _ _ _ _ _ _ (Or.inr (by omega))]
      exact ih h2
    · exact Mat.get_set_self ..

theorem Mat.get_writeRow_of_ne_row (m : Mat) (i w : Nat) (f : Nat → Int) (i2 j : Nat)
    (h : i2 ≠ i) : (m.writeRow i w f).get i2 j = m.get i2 j := by
  induction w with
  | zero => rfl
  | succ w ih =>
    rw [Mat.writeRow_succ, Mat.get_set_of_ne _ _ _ _ _ _ (Or.inl h)]
    exact ih

theorem Mat.get_writeRow_of_ge (m : Mat) (i w : Nat) (f : Nat → Int) (j : Nat) (h : w ≤ j) :
    (m.writeRow i w f).get i j = m.get i j := by
  induction w with
  | zero => rfl
  | succ w ih =>
    rw [Mat.writeRow_succ, Mat.get_set_of_ne _ _ _ _ _ _ (Or.inr (by omega))]
    exact ih (by omega)

theorem Mat.rows_writeRow (m : Mat) (i w : Nat) (f : Nat → Int) :
    (m.writeRow i w f).rows = m.rows := by
  induction w with
  | zero => rfl
  | succ w ih => rw [Mat.writeRow_succ, Mat.rows_set]; exact ih

theorem Mat.cols_writeRow (m : Mat) (i w : Nat) (f : Nat → Int) :
    (m.writeRow i w f).cols = m.cols := by
  induction w with
  | zero => rfl
  | succ w ih => rw [Mat.writeRow_succ, Mat.cols_set]; exact ih

/-! ### The claims -/

open CDiscAdjVariable

/-- C1: for `iPoint < N`, `Set_BGSSolution_k(iPoint)` copies all `nVar` components of the
current BGS solution into the previous-subiteration snapshot, so that immediately
afterwards `Get_BGSSolution_k(iPoint, iVar) == Get_BGSSolution(iPoint, iVar)` for every
`iVar < nVar`, and any subsequent `Set_BGSSolution` write leaves the snapshot value
unchanged. -/
theorem BGS_snapshot_exact_copy_and_decoupled
    (s : CDiscAdjVariable) (iPoint iVar : Nat)
    (hp : iPoint < s.nPoint) (hv : iVar < s.nVar) :
    Get_BGSSolution_k (Set_BGSSolution_k s iPoint) iPoint iVar
      = Get_BGSSolution (Set_BGSSolution_k s iPoint) iPoint iVar ∧
    ∀ jPoint jDim v,
      Get_BGSSolution_k (Set_BGSSolution (Set_BGSSolution_k s iPoint) jPoint jDim v) iPoint iVar
        = Get_BGSSolution_k (Set_BGSSolution_k s iPoint) iPoint iVar := by
  constructor
  · simp only [Get_BGSSolution_k, Get_BGSSolution, Set_BGSSolution_k]
    exact Mat.get_writeRow_of_lt _ _ _ _ _ hv
  · intro jPoint jDim v
    simp only [Get_BGSSolution_k, Set_BGSSolution, Set_BGSSolution_k]

theorem BGS_snapshot_exact_copy_and_decoupled_witness :
    (0 < sampleBGSStore.nPoint ∧ 1 < sampleBGSStore.nVar) ∧
    (Get_BGSSolution_k (Set_BGSSolution_k sampleBGSStore 0) 0 1
        = Get_BGSSolution (Set_BGSSolution_k sampleBGSStore 0) 0 1 ∧
      ∀ jPoint jDim v,
        Get_BGSSolution_k
            (Set_BGSSolution (Set_BGSSolution_k sampleBGSStore 0) jPoint jDim v) 0 1
          = Get_BGSSolution_k (Set_BGSSolution_k sampleBGSStore 0) 0 1) :=
  ⟨⟨by decide, by decide⟩,
    BGS_snapshot_exact_copy_and_decoupled sampleBGSStore 0 1 (by decide) (by decide)⟩

/-- C2: for every tracked field, every valid (node, component) pair, every value `v` and
every prior store state (including one where the same entry was already written with `w`),
setting then getting the same entry returns exactly `v`: the setter overwrites rather
than accumulates, and reads return the last-written value. -/
theorem setter_getter_roundtrip_overwrite
    (s : CDiscAdjVariable) (iPoint iVar iDim : Nat) (v w : Int)
    (hp : iPoint < s.nPoint) (hv : iVar < s.nVar) (hd : iDim < s.nDim) :
    GetSensitivity (SetSensitivity s iPoint iDim v) iPoint iDim = v ∧
    GetSensitivity (SetSensitivity (SetSensitivity s iPoint iDim w) iPoint iDim v) iPoint iDim
      = v ∧
    GetDual_Time_Derivative (SetDual_Time_Derivative s iPoint iVar v) iPoint iVar = v ∧
    GetDual_Time_Derivative
        (SetDual_Time_Derivative (SetDual_Time_Derivative s iPoint iVar w) iPoint iVar v)
        iPoint iVar = v ∧
    GetDual_Time_Derivative_n (SetDual_Time_Derivative_n s iPoint iVar v) iPoint iVar = v ∧
    GetDual_Time_Derivative_n
        (SetDual_Time_Derivative_n (SetDual_Time_Derivative_n s iPoint iVar w) iPoint iVar v)
        iPoint iVar = v ∧
    GetSolution_Geometry (SetSolution_Geometry s iPoint iDim v) iPoint iDim = v ∧
    GetSolution_Geometry
        (SetSolution_Geometry (SetSolution_Geometry s iPoint iDim w) iPoint iDim v)
        iPoint iDim = v ∧
    GetGeometry_CrossTerm_Derivative (SetGeometry_CrossTerm_Derivative s iPoint iDim v)
        iPoint iDim = v ∧
    GetGeometry_CrossTerm_Derivative
        (SetGeometry_CrossTerm_Derivative
          (SetGeometry_CrossTerm_Derivative s iPoint iDim w) iPoint iDim v) iPoint iDim = v ∧
    GetGeometry_CrossTerm_Derivative_Flow
        (SetGeometry_CrossTerm_Derivative_Flow s iPoint iDim v) iPoint iDim = v ∧
    GetGeometry_CrossTerm_Derivative_Flow
        (SetGeometry_CrossTerm_Derivative_Flow
          (SetGeometry_CrossTerm_Derivative_Flow s iPoint iDim w) iPoint iDim v)
        iPoint iDim = v ∧
    Get_BGSSolution (Set_BGSSolution s iPoint iVar v) iPoint iVar = v ∧
    Get_BGSSolution (Set_BGSSolution (Set_BGSSolution s iPoint iVar w) iPoint iVar v)
        iPoint iVar = v ∧
    GetCross_Term_Derivative (SetCross_Term_Derivative s iPoint iVar v) iPoint iVar = v ∧
    GetCross_Term_Derivative
        (SetCross_Term_Derivative (SetCross_Term_Derivative s iPoint iVar w) iPoint iVar v)
        iPoint iVar = v := by
  refine ⟨?_, ?_, ?_, ?_, ?_, ?_, ?_, ?_, ?_, ?_, ?_, ?_, ?_, ?_, ?_, ?_⟩ <;>
    simp only [GetSensitivity, SetSensitivity, GetDual_Time_Derivative,
      SetDual_Time_Derivative, GetDual_Time_Derivative_n, SetDual_Time_Derivative_n,
      GetSolution_Geometry, SetSolution_Geometry, GetGeometry_CrossTerm_Derivative,
      SetGeometry_CrossTerm_Derivative, GetGeometry_CrossTerm_Derivative_Flow,
      SetGeometry_CrossTerm_Derivative_Flow, Get_BGSSolution, Set_BGSSolution,
      GetCross_Term_Derivative, SetCross_Term_Derivative] <;>
    exact Mat.get_set_self ..

theorem setter_getter_roundtrip_overwrite_witness :
    (0 < sampleStore2.nPoint ∧ 1 < sampleStore2.nVar ∧ 1 < sampleStore2.nDim) ∧
    GetSensitivity (SetSensitivity sampleStore2 0 1 5) 0 1 = 5 ∧
    GetSensitivity (SetSensitivity (SetSensitivity sampleStore2 0 1 7) 0 1 5) 0 1 = 5 ∧
    GetDual_Time_Derivative (SetDual_Time_Derivative sampleStore2 0 1 5) 0 1 = 5 ∧
    GetDual_Time_Derivative
        (SetDual_Time_Derivative (SetDual_Time_Derivative sampleStore2 0 1 7) 0 1 5) 0 1 = 5 ∧
    GetDual_Time_Derivative_n (SetDual_Time_Derivative_n sampleStore2 0 1 5) 0 1 = 5 ∧
    GetDual_Time_Derivative_n
        (SetDual_Time_Derivative_n (SetDual_Time_Derivative_n sampleStore2 0 1 7) 0 1 5) 0 1 = 5 ∧
    GetSolution_Geometry (SetSolution_Geometry sampleStore2 0 1 5) 0 1 = 5 ∧
    GetSolution_Geometry
        (SetSolution_Geometry (SetSolution_Geometry sampleStore2 0 1 7) 0 1 5) 0 1 = 5 ∧
    GetGeometry_CrossTerm_Derivative (SetGeometry_CrossTerm_Derivative sampleStore2 0 1 5) 0 1 = 5 ∧
    GetGeometry_CrossTerm_Derivative
        (SetGeometry_CrossTerm_Derivative
          (SetGeometry_CrossTerm_Derivative sampleStore2 0 1 7) 0 1 5) 0 1 = 5 ∧
    GetGeometry_CrossTerm_Derivative_Flow
        (SetGeometry_CrossTerm_Derivative_Flow sampleStore2 0 1 5) 0 1 = 5 ∧
    GetGeometry_CrossTerm_Derivative_Flow
        (SetGeometry_CrossTerm_Derivative_Flow
          (SetGeometry_CrossTerm_Derivative_Flow sampleStore2 0 1 7) 0 1 5) 0 1 = 5 ∧
    Get_BGSSolution (Set_BGSSolution sampleStore2 0 1 5) 0 1 = 5 ∧
    Get_BGSSolution (Set_BGSSolution (Set_BGSSolution sampleStore2 0 1 7) 0 1 5) 0 1 = 5 ∧
    GetCross_Term_Derivative (SetCross_Term_Derivative sampleStore2 0 1 5) 0 1 = 5 ∧
    GetCross_Term_Derivative
        (SetCross_Term_Derivative (SetCross_Term_Derivative sampleStore2 0 1 7) 0 1 5) 0 1 = 5 :=
  ⟨⟨by decide, by decide, by decide⟩,
    setter_getter_roundtrip_overwrite sampleStore2 0 1 1 5 7 (by decide) (by decide) (by decide)⟩

/-- C3: `SetDual_Time_Derivative` and `SetDual_Time_Derivative_n` are independent
overwrites: each never modifies the other field; after a roll-over (copy current into
the `_n` slot) followed by setting a new current value, `Get_Dual_Time_Derivative_n`
returns the pre-roll-over current value, never the newly set one. -/
theorem dual_time_derivative_independent_overwrites
    (s : CDiscAdjVariable) (iPoint iVar : Nat) (v vnew : Int)
    (hp : iPoint < s.nPoint) (hv : iVar < s.nVar) :
    (∀ i2 j2, GetDual_Time_Derivative_n (SetDual_Time_Derivative s iPoint iVar v) i2 j2
        = GetDual_Time_Derivative_n s i2 j2) ∧
    (∀ i2 j2, GetDual_Time_Derivative (SetDual_Time_Derivative_n s iPoint iVar v) i2 j2
        = GetDual_Time_Derivative s i2 j2) ∧
    GetDual_Time_Derivative_n
        (SetDual_Time_Derivative
          (SetDual_Time_Derivative_n s iPoint iVar (GetDual_Time_Derivative s iPoint iVar))
          iPoint iVar vnew)
        iPoint iVar
      = GetDual_Time_Derivative s iPoint iVar := by
  refine ⟨fun i2 j2 => rfl, fun i2 j2 => rfl, ?_⟩
  simp only [GetDual_Time_Derivative_n, SetDual_Time_Derivative, SetDual_Time_Derivative_n,
    GetDual_Time_Derivative]
  exact Mat.get_set_self ..

theorem dual_time_derivative_independent_overwrites_witness :
    (0 < sampleDualStore.nPoint ∧ 0 < sampleDualStore.nVar) ∧
    ((∀ i2 j2, GetDual_Time_Derivative_n (SetDual_Time_Derivative sampleDualStore 0 0 42) i2 j2
        = GetDual_Time_Derivative_n sampleDualStore i2 j2) ∧
     (∀ i2 j2, GetDual_Time_Derivative (SetDual_Time_Derivative_n sampleDualStore 0 0 42) i2 j2
        = GetDual_Time_Derivative sampleDualStore i2 j2) ∧
     GetDual_Time_Derivative_n
        (SetDual_Time_Derivative
          (SetDual_Time_Derivative_n sampleDualStore 0 0 (GetDual_Time_Derivative sampleDualStore 0 0)) 0 0 20) 0 0
      = GetDual_Time_Derivative sampleDualStore 0 0) :=
  ⟨⟨by decide, by decide⟩,
    dual_time_derivative_independent_overwrites sampleDualStore 0 0 42 20 (by decide) (by decide)⟩

/-- C4: `Set_BGSSolution_Geometry(iPoint)` copies all `nDim` components of the live
`Solution_Geometry` into `Solution_Geometry_BGS_k`, `Set_OldSolution_Geometry(iPoint)`
copies the same live field into the distinct `Solution_Geometry_Old`, and the two
snapshots write disjoint storage: each leaves the other's snapshot field unchanged. -/
theorem geometry_snapshots_copy_live_and_disjoint
    (s : CDiscAdjVariable) (iPoint iDim : Nat)
    (hp : iPoint < s.nPoint) (hd : iDim < s.nDim) :
    Get_BGSSolution_Geometry (Set_BGSSolution_Geometry s iPoint) iPoint iDim
      = GetSolution_Geometry s iPoint iDim ∧
    Get_OldSolution_Geometry (Set_OldSolution_Geometry s iPoint) iPoint iDim
      = GetSolution_Geometry s iPoint iDim ∧
    (∀ i2 j2, Get_OldSolution_Geometry (Set_BGSSolution_Geometry s iPoint) i2 j2
        = Get_OldSolution_Geometry s i2 j2) ∧
    (∀ i2 j2, Get_BGSSolution_Geometry (Set_OldSolution_Geometry s iPoint) i2 j2
        = Get_BGSSolution_Geometry s i2 j2) := by
  refine ⟨?_, ?_, fun i2 j2 => rfl, fun i2 j2 => rfl⟩
  · simp only [Get_BGSSolution_Geometry, Set_BGSSolution_Geometry, GetSolution_Geometry]
    exact Mat.get_writeRow_of_lt _ _ _ _ _ hd
  · simp only [Get_OldSolution_Geometry, Set_OldSolution_Geometry, GetSolution_Geometry]
    exact Mat.get_writeRow_of_lt _ _ _ _ _ hd

theorem geometry_snapshots_copy_live_and_disjoint_witness :
    (0 < sampleGeomStore.nPoint ∧ 1 < sampleGeomStore.nDim) ∧
    (Get_BGSSolution_Geometry (Set_BGSSolution_Geometry sampleGeomStore 0) 0 1
        = GetSolution_Geometry sampleGeomStore 0 1 ∧
     Get_OldSolution_Geometry (Set_OldSolution_Geometry sampleGeomStore 0) 0 1
        = GetSolution_Geometry sampleGeomStore 0 1 ∧
     (∀ i2 j2, Get_OldSolution_Geometry (Set_BGSSolution_Geometry sampleGeomStore 0) i2 j2
        = Get_OldSolution_Geometry sampleGeomStore i2 j2) ∧
     (∀ i2 j2, Get_BGSSolution_Geometry (Set_OldSolution_Geometry sampleGeomStore 0) i2 j2
        = Get_BGSSolution_Geometry sampleGeomStore i2 j2)) :=
  ⟨⟨by decide, by decide⟩,
    geometry_snapshots_copy_live_and_disjoint sampleGeomStore 0 1 (by decide) (by decide)⟩

/-- C5: every checked get or set invoked with a node index `≥ N` (including the boundary
case `== N`) or a component index `≥` the declared width of the field's axis (`nDim` for
the spatial `Sensitivity`, `nVar` for the variable-axis `Cross_Term_Derivative`) fails
immediately and deterministically (`none`) instead of clamping, wrapping, or
reading/writing a value. -/
theorem checked_access_out_of_range_fails
    (sol : Nat → Int) (npoint ndim nvar i j i2 j2 : Nat) (v w : Int)
    (h1 : npoint ≤ i ∨ ndim ≤ j) (h2 : npoint ≤ i2 ∨ nvar ≤ j2) :
    GetSensitivityChecked (construct sol npoint ndim nvar) i j = none ∧
    SetSensitivityChecked (construct sol npoint ndim nvar) i j v = none ∧
    GetCross_Term_DerivativeChecked (construct sol npoint ndim nvar) i2 j2 = none ∧
    SetCross_Term_DerivativeChecked (construct sol npoint ndim nvar) i2 j2 w = none := by
  refine ⟨?_, ?_, ?_, ?_⟩ <;>
    simp only [GetSensitivityChecked, SetSensitivityChecked, GetCross_Term_DerivativeChecked,
      SetCross_Term_DerivativeChecked, Mat.getChecked, Mat.setChecked, construct,
      Mat.ofConst] <;>
    rw [if_neg (by omega)] <;>
    rfl

theorem checked_access_out_of_range_fails_witness :
    ((2 : Nat) ≤ 2 ∨ (2 : Nat) ≤ 0) ∧ ((2 : Nat) ≤ 0 ∨ (3 : Nat) ≤ 3) ∧
    (GetSensitivityChecked (construct (fun _ => 0) 2 2 3) 2 0 = none ∧
     SetSensitivityChecked (construct (fun _ => 0) 2 2 3) 2 0 5 = none ∧
     GetCross_Term_DerivativeChecked (construct (fun _ => 0) 2 2 3) 0 3 = none ∧
     SetCross_Term_DerivativeChecked (construct (fun _ => 0) 2 2 3) 0 3 7 = none) :=
  ⟨by decide, by decide,
    checked_access_out_of_range_fails (fun _ => 0) 2 2 3 2 0 0 3 5 7 (by decide) (by decide)⟩

/-- C6: for distinct valid node indices, invoking any setter or snapshot operation of the
class at one node leaves every field's stored values at the other node unchanged. -/
theorem ops_independent_across_nodes
    (s : CDiscAdjVariable) (op : Op) (j : Nat)
    (hi : Op.node op < s.nPoint) (hj : j < s.nPoint) (hne : Op.node op ≠ j) :
    agreeAt (applyOp s op) s j := by
  cases op <;>
    (intro k
     simp only [Op.node] at hne
     refine ⟨?_, ?_, ?_, ?_, ?_, ?_, ?_, ?_, ?_, ?_, ?_, ?_, ?_, ?_⟩ <;>
       first
         | rfl
         | exact Mat.get_set_of_ne _ _ _ _ _ _ (Or.inl hne.symm)
         | exact Mat.get_writeRow_of_ne_row _ _ _ _ _ _ hne.symm)

theorem ops_independent_across_nodes_witness :
    (Op.node (Op.setSensitivity 0 1 5) < sampleStore2.nPoint ∧ 1 < sampleStore2.nPoint ∧
      Op.node (Op.setSensitivity 0 1 5) ≠ 1) ∧
    agreeAt (applyOp sampleStore2 (Op.setSensitivity 0 1 5)) sampleStore2 1 :=
  ⟨⟨by decide, by decide, by decide⟩,
    ops_independent_across_nodes sampleStore2 (Op.setSensitivity 0 1 5) 1 (by decide)
      (by decide) (by decide)⟩

/-- C7: after construction with (initial value vector, N, nDim, nVar), every field has
exactly N rows at its declared column width (`nVar` for variable-axis fields, `nDim` for
spatial-axis fields), and reading any snapshot field before its snapshot operation has
ever been invoked returns the initialization baseline (zero for the fields of this
class, the caller-supplied `sol` for the inherited adjoint `Solution`), not an error. -/
theorem construct_shape_and_baseline (sol : Nat → Int) (npoint ndim nvar : Nat) :
    let s : CDiscAdjVariable := CDiscAdjVariable.construct sol npoint ndim nvar
    (s.Solution.rows = npoint ∧ s.Solution.cols = nvar) ∧
    (s.Sensitivity.rows = npoint ∧ s.Sensitivity.cols = ndim) ∧
    (s.Solution_Direct.rows = npoint ∧ s.Solution_Direct.cols = nvar) ∧
    (s.DualTime_Derivative.rows = npoint ∧ s.DualTime_Derivative.cols = nvar) ∧
    (s.DualTime_Derivative_n.rows = npoint ∧ s.DualTime_Derivative_n.cols = nvar) ∧
    (s.Cross_Term_Derivative.rows = npoint ∧ s.Cross_Term_Derivative.cols = nvar) ∧
    (s.Geometry_CrossTerm_Derivative.rows = npoint ∧
      s.Geometry_CrossTerm_Derivative.cols = ndim) ∧
    (s.Geometry_CrossTerm_Derivative_Flow.rows = npoint ∧
      s.Geometry_CrossTerm_Derivative_Flow.cols = ndim) ∧
    (s.Solution_Geometry.rows = npoint ∧ s.Solution_Geometry.cols = ndim) ∧
    (s.Solution_Geometry_Old.rows = npoint ∧ s.Solution_Geometry_Old.cols = ndim) ∧
    (s.Geometry_Direct.rows = npoint ∧ s.Geometry_Direct.cols = ndim) ∧
    (s.Solution_BGS.rows = npoint ∧ s.Solution_BGS.cols = nvar) ∧
    (s.Solution_BGS_k.rows = npoint ∧ s.Solution_BGS_k.cols = nvar) ∧
    (s.Solution_Geometry_BGS_k.rows = npoint ∧ s.Solution_Geometry_BGS_k.cols = ndim) ∧
    ∀ i j,
      Get_BGSSolution_k s i j = 0 ∧
      Get_OldSolution_Geometry s i j = 0 ∧
      Get_BGSSolution_Geometry s i j = 0 ∧
      Get_BGSSolution s i j = 0 ∧
      GetSensitivity s i j = 0 ∧
      GetDual_Time_Derivative s i j = 0 ∧
      GetDual_Time_Derivative_n s i j = 0 ∧
      GetCross_Term_Derivative s i j = 0 ∧
      GetGeometry_CrossTerm_Derivative s i j = 0 ∧
      GetGeometry_CrossTerm_Derivative_Flow s i j = 0 ∧
      GetSolution_Geometry s i j = 0 ∧
      GetGeometry_Direct s i j = 0 ∧
      GetSolution_Direct s i j = 0 ∧
      s.Solution.get i j = sol j := by
  refine ⟨⟨rfl, rfl⟩, ⟨rfl, rfl⟩, ⟨rfl, rfl⟩, ⟨rfl, rfl⟩, ⟨rfl, rfl⟩, ⟨rfl, rfl⟩,
    ⟨rfl, rfl⟩, ⟨rfl, rfl⟩, ⟨rfl, rfl⟩, ⟨rfl, rfl⟩, ⟨rfl, rfl⟩, ⟨rfl, rfl⟩, ⟨rfl, rfl⟩,
    ⟨rfl, rfl⟩, fun i j => ?_⟩
  exact ⟨rfl, rfl, rfl, rfl, rfl, rfl, rfl, rfl, rfl, rfl, rfl, rfl, rfl, rfl⟩

/-- C8: for `iPoint < N`, calling `Set_OldSolution_Geometry(iPoint)` twice in a row with
no intervening mutation of `Solution_Geometry` leaves `Solution_Geometry_Old` after the
second call equal, component by component, to its value after the first call. -/
theorem old_geometry_snapshot_idempotent
    (s : CDiscAdjVariable) (iPoint : Nat) (hp : iPoint < s.nPoint) :
    ∀ i2 j2,
      Get_OldSolution_Geometry
          (Set_OldSolution_Geometry (Set_OldSolution_Geometry s iPoint) iPoint) i2 j2
        = Get_OldSolution_Geometry (Set_OldSolution_Geometry s iPoint) i2 j2 := by
  intro i2 j2
  by_cases hrow : i2 = iPoint
  · subst hrow
    by_cases hcol : j2 < s.nDim
    · have h1 : Get_OldSolution_Geometry (Set_OldSolution_Geometry s i2) i2 j2
          = s.Solution_Geometry.get i2 j2 := Mat.get_writeRow_of_lt _ _ _ _ _ hcol
      have h2 : Get_OldSolution_Geometry
            (Set_OldSolution_Geometry (Set_OldSolution_Geometry s i2) i2) i2 j2
          = s.Solution_Geometry.get i2 j2 := Mat.get_writeRow_of_lt _ _ _ _ _ hcol
      rw [h1, h2]
    · exact Mat.get_writeRow_of_ge _ _ _ _ _ (le_of_not_lt hcol)
  · exact Mat.get_writeRow_of_ne_row _ _ _ _ _ _ hrow

theorem old_geometry_snapshot_idempotent_witness :
    0 < sampleGeomStore.nPoint ∧
    ∀ i2 j2,
      Get_OldSolution_Geometry
          (Set_OldSolution_Geometry (Set_OldSolution_Geometry sampleGeomStore 0) 0) i2 j2
        = Get_OldSolution_Geometry (Set_OldSolution_Geometry sampleGeomStore 0) i2 j2 :=
  ⟨by decide, old_geometry_snapshot_idempotent sampleGeomStore 0 (by decide)⟩

/-- C9 counterexample: the batched setters take a raw pointer with no length
information and perform no validation.  With `nVar = 3` and a supplied vector holding
only 2 elements (memory beyond it modelled as the junk value 99), `SetSolution_Direct`
completes normally and stores the junk read past the end of the supplied vector into
component 2 — it does not fail immediately. -/
theorem batched_set_reads_past_vector_cex :
    GetSolution_Direct (SetSolution_Direct sampleStore1 0 shortVec) 0 0 = 10 ∧
    GetSolution_Direct (SetSolution_Direct sampleStore1 0 shortVec) 0 1 = 20 ∧
    GetSolution_Direct (SetSolution_Direct sampleStore1 0 shortVec) 0 2 = 99 := by
  refine ⟨?_, ?_, ?_⟩ <;> decide

/-- C9 amended: the batched vector setters (`SetSolution_Direct`, `SetGeometry_Direct`,
`SetSolution_Geometry`'s vector overload) perform no length validation: they
unconditionally read exactly `nVar` (resp. `nDim`) consecutive entries from the
supplied pointer and write them into the row, leaving components at or beyond the
declared width untouched; a length mismatch is never detected or reported. -/
theorem batched_set_unchecked_reads_width
    (s : CDiscAdjVariable) (iPoint iVar iDim : Nat) (val : Nat → Int)
    (hv : iVar < s.nVar) (hd : iDim < s.nDim) :
    GetSolution_Direct (SetSolution_Direct s iPoint val) iPoint iVar = val iVar ∧
    GetGeometry_Direct (SetGeometry_Direct s iPoint val) iPoint iDim = val iDim ∧
    GetSolution_Geometry (SetSolution_GeometryVec s iPoint val) iPoint iDim = val iDim ∧
    (∀ k, s.nVar ≤ k →
      GetSolution_Direct (SetSolution_Direct s iPoint val) iPoint k
        = GetSolution_Direct s iPoint k) ∧
    (∀ k, s.nDim ≤ k →
      GetGeometry_Direct (SetGeometry_Direct s iPoint val) iPoint k
        = GetGeometry_Direct s iPoint k) ∧
    (∀ k, s.nDim ≤ k →
      GetSolution_Geometry (SetSolution_GeometryVec s iPoint val) iPoint k
        = GetSolution_Geometry s iPoint k) := by
  refine ⟨Mat.get_writeRow_of_lt _ _ _ _ _ hv, Mat.get_writeRow_of_lt _ _ _ _ _ hd,
    Mat.get_writeRow_of_lt _ _ _ _ _ hd,
    fun k hk => Mat.get_writeRow_of_ge _ _ _ _ _ hk,
    fun k hk => Mat.get_writeRow_of_ge _ _ _ _ _ hk,
    fun k hk => Mat.get_writeRow_of_ge _ _ _ _ _ hk⟩

theorem batched_set_unchecked_reads_width_witness :
    (2 < sampleStore1.nVar ∧ 1 < sampleStore1.nDim) ∧
    (GetSolution_Direct (SetSolution_Direct sampleStore1 0 shortVec) 0 2 = shortVec 2 ∧
     GetGeometry_Direct (SetGeometry_Direct sampleStore1 0 shortVec) 0 1 = shortVec 1 ∧
     GetSolution_Geometry (SetSolution_GeometryVec sampleStore1 0 shortVec) 0 1 = shortVec 1 ∧
     (∀ k, sampleStore1.nVar ≤ k →
       GetSolution_Direct (SetSolution_Direct sampleStore1 0 shortVec) 0 k = GetSolution_Direct sampleStore1 0 k) ∧
     (∀ k, sampleStore1.nDim ≤ k →
       GetGeometry_Direct (SetGeometry_Direct sampleStore1 0 shortVec) 0 k = GetGeometry_Direct sampleStore1 0 k) ∧
     (∀ k, sampleStore1.nDim ≤ k →
       GetSolution_Geometry (SetSolution_GeometryVec sampleStore1 0 shortVec) 0 k
         = GetSolution_Geometry sampleStore1 0 k)) :=
  ⟨⟨by decide, by decide⟩,
    batched_set_unchecked_reads_width sampleStore1 0 2 1 shortVec (by decide) (by decide)⟩

/-- `applyOp` never changes the sizing members. -/
theorem nVar_applyOp (s : CDiscAdjVariable) (op : Op) : (applyOp s op).nVar = s.nVar := by
  cases op <;> rfl

/-- `exec` never changes the sizing members. -/
theorem nVar_exec (s : CDiscAdjVariable) (ops : List Op) : (exec s ops).nVar = s.nVar := by
  induction ops generalizing s with
  | nil => rfl
  | cons op rest ih => rw [show exec s (op :: rest) = exec (applyOp s op) rest from rfl,
      ih, nVar_applyOp]

/-- A call sequence containing no `Set_BGSSolution` at node `iPoint` leaves the
`Solution_BGS` row of `iPoint` unchanged. -/
theorem Solution_BGS_get_exec_of_not_written
    (ops : List Op) (s : CDiscAdjVariable) (iPoint k : Nat)
    (h : ∀ op ∈ ops, op.writesBGSSolutionAt iPoint = false) :
    (exec s ops).Solution_BGS.get iPoint k = s.Solution_BGS.get iPoint k := by
  induction ops generalizing s with
  | nil => rfl
  | cons op rest ih =>
    have hop := h op (List.mem_cons_self _ _)
    have hrest : ∀ o ∈ rest, o.writesBGSSolutionAt iPoint = false :=
      fun o ho => h o (List.mem_cons_of_mem _ ho)
    rw [show exec s (op :: rest) = exec (applyOp s op) rest from rfl, ih _ hrest]
    cases op
    case setBGSSolution p d v =>
      have hp2 : p ≠ iPoint := by simpa [Op.writesBGSSolutionAt] using hop
      exact Mat.get_set_of_ne _ _ _ _ _ _ (Or.inl hp2.symm)
    all_goals rfl

/-- C10: `Set_BGSSolution_k(iPoint)` sources its copy exclusively from the stored
`Solution_BGS` field (written only by `Set_BGSSolution`): starting from a freshly
constructed store and running any call sequence that never invokes `Set_BGSSolution`
at node `iPoint`, calling `Set_BGSSolution_k(iPoint)` makes `Get_BGSSolution_k` return
the construction-time baseline (zero) of `Solution_BGS`, regardless of what the
sequence wrote into any other field at that node. -/
theorem snapshot_sources_from_Solution_BGS_baseline
    (sol : Nat → Int) (npoint ndim nvar iPoint iVar : Nat) (ops : List Op)
    (hp : iPoint < npoint) (hv : iVar < nvar)
    (h : ∀ op ∈ ops, op.writesBGSSolutionAt iPoint = false) :
    Get_BGSSolution_k
        (Set_BGSSolution_k (exec (construct sol npoint ndim nvar) ops) iPoint)
        iPoint iVar = 0 := by
  have hv2 : iVar < (exec (construct sol npoint ndim nvar) ops).nVar := by
    rw [nVar_exec]; exact hv
  have h1 : Get_BGSSolution_k
      (Set_BGSSolution_k (exec (construct sol npoint ndim nvar) ops) iPoint) iPoint iVar
      = (exec (construct sol npoint ndim nvar) ops).Solution_BGS.get iPoint iVar :=
    Mat.get_writeRow_of_lt _ _ _ _ _ hv2
  rw [h1, Solution_BGS_get_exec_of_not_written ops _ iPoint iVar h]
  rfl

theorem snapshot_sources_from_Solution_BGS_baseline_witness :
    ((0 : Nat) < 2 ∧ (1 : Nat) < 3 ∧
      ∀ op ∈ sampleOps, op.writesBGSSolutionAt 0 = false) ∧
    Get_BGSSolution_k
        (Set_BGSSolution_k (exec (construct (fun _ => 0) 2 2 3) sampleOps) 0) 0 1 = 0 :=
  ⟨⟨by decide, by decide, by decide⟩,
    snapshot_sources_from_Solution_BGS_baseline (fun _ => 0) 2 2 3 0 1 sampleOps (by decide)
      (by decide) (by decide)⟩
